import Mathlib

/-!
Shallow embedding of the ARM hard-fault handler repository
(`src/fault_handler.c`, `src/communication.c`).

The fault handler's observable behaviour is the sequence of text lines it
emits (via the `FAULT_PRINT*` macros) plus the sequence of memory-mapped
status-register reads it performs, so each C function is embedded as a pure
Lean function from the captured machine state to a `List String` of emitted
lines, with a parallel `List FaultReg` of status-register reads.  The
memory-mapped registers `HFSR, CFSR, MMFAR, BFAR, AFSR` are passed
explicitly as a `FaultRegs` record (hardware-owned, read-only state).
-/

/-- The five memory-mapped fault status registers read by the handler. -/
inductive FaultReg
  | hfsr
  | cfsr
  | mmfar
  | bfar
  | afsr
deriving DecidableEq, Repr

/-- The hardware-owned fault status register file: values of
`HFSR` (0xe000ed2c), `CFSR` (0xe000ed28), `MMFAR` (0xe000ed34),
`BFAR` (0xe000ed38), `AFSR` (0xe000ed3c) as 32-bit words. -/
structure FaultRegs where
  hfsr : Nat
  cfsr : Nat
  mmfar : Nat
  bfar : Nat
  afsr : Nat
deriving DecidableEq, Repr

/-- The eight stacked 32-bit words pushed by hardware on exception entry
(`stack_frame[0..7]` in `ReportStackUsage`). -/
structure StackFrame where
  r0 : Nat
  r1 : Nat
  r2 : Nat
  r3 : Nat
  r12 : Nat
  lr : Nat
  pc : Nat
  psr : Nat
deriving DecidableEq, Repr

/-- Source macro: `#define CHECK_BIT(REG, POS) ((REG) & (1u << (POS)))`. -/
def CHECK_BIT (reg pos : Nat) : Nat := reg &&& (1 <<< pos)

/- Hard Fault Status Register bit positions. -/
def FORCED : Nat := 30
def VECTTBL : Nat := 1

/- MemManage Fault Status Register (MMFSR; bits 0-7 of CFSR). -/
def MMARVALID : Nat := 7
def MLSPERR : Nat := 5
def MSTKERR : Nat := 4
def MUNSTKERR : Nat := 3
def DACCVIOL : Nat := 1
def IACCVIOL : Nat := 0

/- Bus Fault Status Register (BFSR; bits 8-15 of CFSR). -/
def BFARVALID : Nat := 15
def LSPERR : Nat := 13
def STKERR : Nat := 12
def UNSTKERR : Nat := 11
def IMPRECISERR : Nat := 10
def PRECISERR : Nat := 9
def IBUSERR : Nat := 8

/- Usage Fault Status Register (UFSR; bits 16-25 of CFSR). -/
def DIVBYZERO : Nat := 25
def UNALIGNED : Nat := 24
def NOCP : Nat := 19
def INVPC : Nat := 18
def INVSTATE : Nat := 17
def UNDEFINSTR : Nat := 16

/-- Source macro: `#define AIRCR_RESETREQ ((uint32_t)0x05fa0040)`. -/
def AIRCR_RESETREQ : Nat := 0x05fa0040

/-- Source macro: `#define DEBUGEN ((uint8_t)1u)` — defined but never used. -/
def DEBUGEN : Nat := 1

/-- Modelled from the spec: the `FAULT_PRINT_HEX` macro comes from
`fault_config.h`, which is not among the sources; the spec requires the
register values to be emitted as fixed-width hexadecimal fields, modelled
here as the 8 hex digits of the 32-bit value.  Digit of value `n < 16`. -/
def hexDigit (n : Nat) : Char :=
  if n < 10 then Char.ofNat (48 + n) else Char.ofNat (87 + n)

/-- Modelled from the spec: fixed-width (8 hex digit) rendering of a 32-bit
value, the output of one `FAULT_PRINT_HEX` invocation. -/
def hex8 (v : Nat) : String :=
  String.mk ((List.range 8).map (fun k => hexDigit (v / 16 ^ (7 - k) % 16)))

/-- Raw dump `ReportStackUsage(uint32_t *stack_frame, uint32_t exc)`.
Each `FAULT_PRINT(label); FAULT_PRINT_HEX(v); FAULT_NEWLINE();` sequence
yields one emitted line `label ++ hex8 v`; each `FAULT_PRINTLN(s)` yields
the line `s`. -/
def ReportStackUsage (f : StackFrame) (exc : Nat) (regs : FaultRegs) : List String :=
  ["!!!Fault detected!!!",
   "Stack frame:",
   "R0 :    " ++ hex8 f.r0,
   "R1 :    " ++ hex8 f.r1,
   "R2 :    " ++ hex8 f.r2,
   "R3 :    " ++ hex8 f.r3,
   "R12:    " ++ hex8 f.r12,
   "LR :    " ++ hex8 f.lr,
   "PC :    " ++ hex8 f.pc,
   "PSR:    " ++ hex8 f.psr,
   "Fault status:",
   "HFSR:    " ++ hex8 regs.hfsr,
   "CFSR:    " ++ hex8 regs.cfsr,
   "MMAR:    " ++ hex8 regs.mmfar,
   "BFAR:    " ++ hex8 regs.bfar,
   "AFSR:    " ++ hex8 regs.afsr,
   "Other:",
   "EXC_RETURN: " ++ hex8 exc]

/-- The arguments of the fourteen `FAULT_PRINT_HEX` invocations in
`ReportStackUsage`, in source order: the eight stacked frame words, the
five status-register snapshot values, and `EXC_RETURN`. -/
def ReportStackUsageHexValues (f : StackFrame) (exc : Nat) (regs : FaultRegs) : List Nat :=
  [f.r0, f.r1, f.r2, f.r3, f.r12, f.lr, f.pc, f.psr,
   regs.hfsr, regs.cfsr, regs.mmfar, regs.bfar, regs.afsr, exc]

/-- Status-register reads performed by `ReportStackUsage`
(`uint32_t hfsr = HFSR; ... uint32_t afsr = AFSR;`), in source order. -/
def ReportStackUsageReads : List FaultReg :=
  [.hfsr, .cfsr, .mmfar, .bfar, .afsr]

/-- Lines emitted by `ReportMemanageFault` for the MemManage sub-field of
CFSR.  The function re-reads `CFSR` itself (`uint32_t cfsr = CFSR;`). -/
def ReportMemanageFault (regs : FaultRegs) : List String :=
  ["MemManage fault status:"]
  ++ [if CHECK_BIT regs.cfsr MMARVALID ≠ 0 then
        " - MMAR holds a valid address."
      else
        " - MMAR holds an invalid address."]
  ++ (if CHECK_BIT regs.cfsr MLSPERR ≠ 0 then
        [" - Fault occurred during floating-point lazy state preservation."] else [])
  ++ (if CHECK_BIT regs.cfsr MSTKERR ≠ 0 then
        [" - Stacking has caused an access violation."] else [])
  ++ (if CHECK_BIT regs.cfsr MUNSTKERR ≠ 0 then
        [" - Unstacking has caused an access violation."] else [])
  ++ (if CHECK_BIT regs.cfsr DACCVIOL ≠ 0 then
        [" - Load or store at a location that does not permit the operation."] else [])
  ++ (if CHECK_BIT regs.cfsr IACCVIOL ≠ 0 then
        [" - Instruction fetch from a location that does not permit execution."] else [])

/-- Status-register reads performed by `ReportMemanageFault`. -/
def ReportMemanageFaultReads : List FaultReg := [.cfsr]

/-- Lines emitted by `ReportBusFault` for the BusFault sub-field of CFSR.
The header string contains a trailing `\n` in the source
(`FAULT_PRINTLN("Bus fault status:\n")`). -/
def ReportBusFault (regs : FaultRegs) : List String :=
  ["Bus fault status:\n"]
  ++ [if CHECK_BIT regs.cfsr BFARVALID ≠ 0 then
        " - BFAR holds a valid address."
      else
        " - BFAR holds an invalid address."]
  ++ (if CHECK_BIT regs.cfsr LSPERR ≠ 0 then
        [" - Fault occurred during floating-point lazy state preservation."] else [])
  ++ (if CHECK_BIT regs.cfsr STKERR ≠ 0 then
        [" - Stacking has caused a Bus fault."] else [])
  ++ (if CHECK_BIT regs.cfsr UNSTKERR ≠ 0 then
        [" - Unstacking has caused a Bus fault."] else [])
  ++ (if CHECK_BIT regs.cfsr IMPRECISERR ≠ 0 then
        [" - Data bus error has occurred, but the return address in the stack is not related to the fault."] else [])
  ++ (if CHECK_BIT regs.cfsr PRECISERR ≠ 0 then
        [" - Data bus error has occurred, and the return address points to the instruction that caused the fault."] else [])
  ++ (if CHECK_BIT regs.cfsr IBUSERR ≠ 0 then
        [" - Instruction bus error."] else [])

/-- Status-register reads performed by `ReportBusFault`. -/
def ReportBusFaultReads : List FaultReg := [.cfsr]

/-- Lines emitted by `ReportUsageFault` for the UsageFault sub-field of CFSR. -/
def ReportUsageFault (regs : FaultRegs) : List String :=
  ["Usage fault status:"]
  ++ (if CHECK_BIT regs.cfsr DIVBYZERO ≠ 0 then
        [" - The processor has executed an SDIV or UDIV instruction with a divisor of 0."] else [])
  ++ (if CHECK_BIT regs.cfsr UNALIGNED ≠ 0 then
        [" - The processor has made an unaligned memory access."] else [])
  ++ (if CHECK_BIT regs.cfsr NOCP ≠ 0 then
        [" - Attempted to access a coprocessor."] else [])
  ++ (if CHECK_BIT regs.cfsr INVPC ≠ 0 then
        [" - Illegal attempt to load of EXC_RETURN to the PC."] else [])
  ++ (if CHECK_BIT regs.cfsr INVSTATE ≠ 0 then
        [" - Attempted to execute an instruction that makes illegal use of the EPSR."] else [])
  ++ (if CHECK_BIT regs.cfsr UNDEFINSTR ≠ 0 then
        [" - The processor has attempted to execute an undefined instruction."] else [])

/-- Status-register reads performed by `ReportUsageFault`. -/
def ReportUsageFaultReads : List FaultReg := [.cfsr]

/-- Lines emitted by `ReportHardFault` for the HFSR bits (FORCED then
VECTTBL).  Re-reads `HFSR` itself. -/
def ReportHardFault (regs : FaultRegs) : List String :=
  ["Hard fault status:"]
  ++ (if CHECK_BIT regs.hfsr FORCED ≠ 0 then
        [" - Forced Hard fault."] else [])
  ++ (if CHECK_BIT regs.hfsr VECTTBL ≠ 0 then
        [" - Bus fault on vector table read."] else [])

/-- Status-register reads performed by `ReportHardFault`. -/
def ReportHardFaultReads : List FaultReg := [.hfsr]

/-- The MemManage fault vector handler (`MEMMANAGE_FAULT_SYMBOL`):
`REPORT_STACK_FRAME` captures the frame and calls `ReportStackUsage`, then
`ReportMemanageFault()` runs.  The optional user hook is not configured;
`HaltExecution` emits no lines (modelled separately below). -/
def MEMMANAGE_FAULT_SYMBOL (f : StackFrame) (exc : Nat) (regs : FaultRegs) : List String :=
  ReportStackUsage f exc regs ++ ReportMemanageFault regs

/-- The Hard fault vector handler (`HARD_FAULT_SYMBOL`): raw dump, then
all three CFSR sub-field decodes, then the HFSR decode. -/
def HARD_FAULT_SYMBOL (f : StackFrame) (exc : Nat) (regs : FaultRegs) : List String :=
  ReportStackUsage f exc regs ++ ReportMemanageFault regs ++ ReportBusFault regs
  ++ ReportUsageFault regs ++ ReportHardFault regs

/-- The Bus fault vector handler (`BUS_FAULT_SYMBOL`). -/
def BUS_FAULT_SYMBOL (f : StackFrame) (exc : Nat) (regs : FaultRegs) : List String :=
  ReportStackUsage f exc regs ++ ReportBusFault regs

/-- The Usage fault vector handler (`USAGE_FAULT_SYMBOL`). -/
def USAGE_FAULT_SYMBOL (f : StackFrame) (exc : Nat) (regs : FaultRegs) : List String :=
  ReportStackUsage f exc regs ++ ReportUsageFault regs

/-- Status-register read trace of one `HARD_FAULT_SYMBOL` invocation:
the dump snapshot reads followed by the fresh read each decode function
performs on entry. -/
def HARD_FAULT_SYMBOL_Reads : List FaultReg :=
  ReportStackUsageReads ++ ReportMemanageFaultReads ++ ReportBusFaultReads
  ++ ReportUsageFaultReads ++ ReportHardFaultReads

/-- Status-register read trace of one `MEMMANAGE_FAULT_SYMBOL` invocation. -/
def MEMMANAGE_FAULT_SYMBOL_Reads : List FaultReg :=
  ReportStackUsageReads ++ ReportMemanageFaultReads

/-- Status-register read trace of one `BUS_FAULT_SYMBOL` invocation. -/
def BUS_FAULT_SYMBOL_Reads : List FaultReg :=
  ReportStackUsageReads ++ ReportBusFaultReads

/-- Status-register read trace of one `USAGE_FAULT_SYMBOL` invocation. -/
def USAGE_FAULT_SYMBOL_Reads : List FaultReg :=
  ReportStackUsageReads ++ ReportUsageFaultReads

/-- The compile-time recovery-policy configuration: which of
`FAULT_BREAKPOINT`, `FAULT_REBOOT`, `FAULT_STOP` are defined. -/
structure FaultConfig where
  breakpoint : Bool
  reboot : Bool
  stop : Bool
deriving DecidableEq, Repr

/-- Hardware-visible actions `HaltExecution` can take. -/
inductive HaltAction
  | bkpt
  | writeAIRCR (v : Nat)
deriving DecidableEq, Repr

/-- The `while(1);` loop under `FAULT_STOP`: a fuel-indexed run that makes
no progress, so no amount of fuel reaches completion. -/
def stopSpin : Nat → Option (List HaltAction)
  | 0 => none
  | n + 1 => stopSpin n

/-- Fuel-indexed model of `HaltExecution`: `some acts` means the function returned
to its caller having performed `acts`; `none` means it did not return
within `fuel` steps.  Under `FAULT_BREAKPOINT` it executes `BKPT #0`
unconditionally — the source contains no read of `DHCSR` and no test of
`DEBUGEN` — then under `FAULT_REBOOT` writes `AIRCR_RESETREQ` to `AIRCR`,
then under `FAULT_STOP` enters `while(1);`. -/
def HaltExecution (cfg : FaultConfig) (fuel : Nat) : Option (List HaltAction) :=
  let acts := (if cfg.breakpoint then [HaltAction.bkpt] else [])
              ++ (if cfg.reboot then [HaltAction.writeAIRCR AIRCR_RESETREQ] else [])
  if cfg.stop then stopSpin fuel else some acts

/-- Cause-bit positions of the MemManage sub-field, beyond the
unconditional MMARVALID valid-address line. -/
def memCauseBits : List Nat := [MLSPERR, MSTKERR, MUNSTKERR, DACCVIOL, IACCVIOL]

/-- Cause-bit positions of the BusFault sub-field, beyond the
unconditional BFARVALID valid-address line. -/
def busCauseBits : List Nat :=
  [LSPERR, STKERR, UNSTKERR, IMPRECISERR, PRECISERR, IBUSERR]

/-- Cause-bit positions of the UsageFault sub-field. -/
def usageCauseBits : List Nat :=
  [DIVBYZERO, UNALIGNED, NOCP, INVPC, INVSTATE, UNDEFINSTR]

/-- Number of the given bit positions set in `v`. -/
def setBitCount (v : Nat) (bits : List Nat) : Nat :=
  (bits.filter (fun b => v.testBit b)).length

/-- The loop body of `_write` in `communication.c`, fuel-indexed.  The
counter `i` is `uint16_t`, so the increment wraps modulo 2^16; the
comparison `i < len` promotes `i` to `int`.  The ITM FIFO busy-wait is
modelled as always becoming ready; the written bytes are accumulated in
order.  `none` means the loop did not finish within `fuel` iterations. -/
def writeLoopGo (data : Nat → Int) (len : Int) : Nat → Nat → List Int → Option (List Int)
  | 0, _, _ => none
  | fuel + 1, i, acc =>
    if (i : Int) < len then
      writeLoopGo data len fuel ((i + 1) % 65536) (acc ++ [data i])
    else
      some acc

/-- Model of `int _write(int file, char *data, int len)`: runs the loop from
`i = 0` and returns `len` unchanged together with the bytes written. -/
def _write (file : Int) (data : Nat → Int) (len : Int) (fuel : Nat) :
    Option (List Int × Int) :=
  (writeLoopGo data len fuel 0 []).map (fun w => (w, len))

/-! ## Helper lemmas -/

/-- Truth test: `CHECK_BIT` is nonzero exactly when the tested bit is set. -/
theorem CHECK_BIT_ne_zero (r p : Nat) : CHECK_BIT r p ≠ 0 ↔ r.testBit p = true := by
  simp [CHECK_BIT, Nat.shiftLeft_eq, Nat.and_two_pow]

/-- The C truth-test `if (CHECK_BIT(reg, pos))` agrees with `Nat.testBit`. -/
theorem ite_CHECK_BIT {α : Sort u} (r p : Nat) (a b : α) :
    (if CHECK_BIT r p ≠ 0 then a else b) = (if r.testBit p then a else b) := by
  by_cases h : r.testBit p
  · rw [if_pos ((CHECK_BIT_ne_zero r p).mpr h), if_pos h]
  · rw [if_neg (fun hc => h ((CHECK_BIT_ne_zero r p).mp hc)), if_neg h]

/-- The `while(1);` loop makes no progress: no fuel completes it. -/
theorem stopSpin_eq_none : ∀ n : Nat, stopSpin n = none
  | 0 => rfl
  | n + 1 => stopSpin_eq_none n

/-- Truth test: `CHECK_BIT` is zero exactly when the tested bit is clear. -/
theorem CHECK_BIT_eq_zero (r p : Nat) : CHECK_BIT r p = 0 ↔ r.testBit p = false := by
  rcases h : r.testBit p
  · simp [CHECK_BIT, Nat.shiftLeft_eq, Nat.and_two_pow, h]
  · simp [CHECK_BIT, Nat.shiftLeft_eq, Nat.and_two_pow, h, Nat.pos_iff_ne_zero]

/-- Terminating runs of the `_write` loop: whenever `len ≤ 65535` and the
counter can reach `len` within the remaining fuel without wrapping, the
loop completes and appends `data i, data (i+1), ...` up to `len - 1`. -/
theorem writeLoopGo_term (data : Nat → Int) (len : Int) (hlen : len ≤ 65535) :
    ∀ (n i : Nat), len ≤ (i : Int) + (n : Int) → i ≤ 65535 → ∀ (acc : List Int),
      writeLoopGo data len (n + 1) i acc
        = some (acc ++ (List.range' i (len - (i : Int)).toNat).map data) := by
  intro n
  induction n with
  | zero =>
    intro i hle hi acc
    have hni : ¬ ((i : Int) < len) := by push_cast at hle; omega
    have hz : (len - (i : Int)).toNat = 0 := by omega
    simp [writeLoopGo, hni, hz]
  | succ n ih =>
    intro i hle hi acc
    by_cases hc : (i : Int) < len
    · have hi' : i + 1 ≤ 65535 := by
        have : (i : Int) < 65535 := lt_of_lt_of_le hc hlen
        omega
      have hmod : (i + 1) % 65536 = i + 1 := Nat.mod_eq_of_lt (by omega)
      rw [writeLoopGo, if_pos hc, hmod,
        ih (i + 1) (by push_cast; push_cast at hle; omega) hi' (acc ++ [data i])]
      have hk : (len - (i : Int)).toNat = (len - ((i : Int) + 1)).toNat + 1 := by omega
      have hcast : (len - ((i : Nat) + 1 : Nat)).toNat = (len - ((i : Int) + 1)).toNat := by
        push_cast; ring_nf
      rw [hcast, hk, List.range'_succ]
      simp
    · rw [writeLoopGo, if_neg hc]
      have hz : (len - (i : Int)).toNat = 0 := by omega
      simp [hz]

/-- Diverging runs of the `_write` loop: when `65536 ≤ len` the `uint16_t`
counter always stays below `len`, so no fuel makes the loop finish. -/
theorem writeLoopGo_div (data : Nat → Int) (len : Int) (hlen : 65536 ≤ len) :
    ∀ (fuel i : Nat), i ≤ 65535 → ∀ (acc : List Int),
      writeLoopGo data len fuel i acc = none := by
  intro fuel
  induction fuel with
  | zero => intro i hi acc; rfl
  | succ fuel ih =>
    intro i hi acc
    have hc : (i : Int) < len := by omega
    rw [writeLoopGo, if_pos hc]
    exact ih ((i + 1) % 65536) (by omega) _

/-! ## Claim theorems -/

/-- C1: when the Hard Fault vector fires, the handler decodes HFSR bit 30
(FORCED) and bit 1 (VECTTBL) — each line appears exactly when its bit is
set — and additionally runs all three CFSR sub-field decodes (MemManage,
Bus, Usage), whereas the MemManage, Bus, and Usage vectors each run only
their own sub-field decode after the raw dump. -/
theorem c1_hard_fault_decodes_hfsr_and_all_subfields
    (f : StackFrame) (exc : Nat) (r : FaultRegs) :
    HARD_FAULT_SYMBOL f exc r
      = ReportStackUsage f exc r ++ ReportMemanageFault r ++ ReportBusFault r
        ++ ReportUsageFault r ++ ReportHardFault r
    ∧ (" - Forced Hard fault." ∈ ReportHardFault r ↔ r.hfsr.testBit FORCED = true)
    ∧ (" - Bus fault on vector table read." ∈ ReportHardFault r
        ↔ r.hfsr.testBit VECTTBL = true)
    ∧ MEMMANAGE_FAULT_SYMBOL f exc r = ReportStackUsage f exc r ++ ReportMemanageFault r
    ∧ BUS_FAULT_SYMBOL f exc r = ReportStackUsage f exc r ++ ReportBusFault r
    ∧ USAGE_FAULT_SYMBOL f exc r = ReportStackUsage f exc r ++ ReportUsageFault r := by
  refine ⟨rfl, ?_, ?_, rfl, rfl, rfl⟩ <;>
    cases h30 : r.hfsr.testBit FORCED <;> cases h1 : r.hfsr.testBit VECTTBL <;>
      simp [ReportHardFault, CHECK_BIT_ne_zero, CHECK_BIT_eq_zero, h30, h1]

/-- C2 (evaluation at the failing configuration): under the Breakpoint
policy alone (`FAULT_BREAKPOINT` defined, `FAULT_REBOOT`/`FAULT_STOP` not),
`HaltExecution` executes `BKPT #0` unconditionally — the source never reads
`DHCSR` or tests `DEBUGEN`, so the result is the same whether or not a
debugger is attached — and then returns to its caller for every fuel; the
infinite wait exists only under the `FAULT_STOP` policy. -/
theorem c2_breakpoint_policy_ignores_debug_enable :
    (∀ fuel : Nat, HaltExecution ⟨true, false, false⟩ fuel = some [HaltAction.bkpt])
    ∧ (∀ fuel : Nat, HaltExecution ⟨true, false, true⟩ fuel = none) := by
  constructor
  · intro fuel; rfl
  · intro fuel; simp [HaltExecution, stopSpin_eq_none]

/-- C3 counterexample: during a single Hard-fault report CFSR is not read
exactly once. -/
theorem c3_counterexample_cfsr_not_read_once :
    ¬ (HARD_FAULT_SYMBOL_Reads.count FaultReg.cfsr = 1) := by decide

/-- C3 (amended): `ReportStackUsage` reads each of the five status
registers exactly once for the raw dump, but every decode function
re-reads its own status register on entry, so a Hard-fault report reads
CFSR four times and HFSR twice (MMFAR, BFAR, AFSR once each), and each
dedicated vector's report reads CFSR twice. -/
theorem c3_amended_register_read_counts :
    HARD_FAULT_SYMBOL_Reads.count FaultReg.cfsr = 4
    ∧ HARD_FAULT_SYMBOL_Reads.count FaultReg.hfsr = 2
    ∧ HARD_FAULT_SYMBOL_Reads.count FaultReg.mmfar = 1
    ∧ HARD_FAULT_SYMBOL_Reads.count FaultReg.bfar = 1
    ∧ HARD_FAULT_SYMBOL_Reads.count FaultReg.afsr = 1
    ∧ MEMMANAGE_FAULT_SYMBOL_Reads.count FaultReg.cfsr = 2
    ∧ BUS_FAULT_SYMBOL_Reads.count FaultReg.cfsr = 2
    ∧ USAGE_FAULT_SYMBOL_Reads.count FaultReg.cfsr = 2
    ∧ ReportStackUsageReads.count FaultReg.cfsr = 1
    ∧ ReportStackUsageReads.count FaultReg.hfsr = 1 := by decide

/-- C4 counterexample: the raw dump emits fourteen hexadecimal fields, not
sixteen, already on the all-zero frame and all-zero registers. -/
theorem c4_counterexample_not_sixteen_fields :
    ¬ ((ReportStackUsageHexValues ⟨0, 0, 0, 0, 0, 0, 0, 0⟩ 0 ⟨0, 0, 0, 0, 0⟩).length
        = 16) := by decide

/-- C4 (amended): for every input frame and every status-register state,
the baseline raw dump is emitted unconditionally and unchanged as the
first 18 lines of every handler's output: the values R0, R1, R2, R3, R12,
LR, PC, PSR, HFSR, CFSR, MMFAR, BFAR, AFSR and EXC_RETURN appear as
fourteen fixed-width hexadecimal fields in a fixed order, independent of
which decode bits are set. -/
theorem c4_amended_dump_unconditional (f : StackFrame) (exc : Nat) (r : FaultRegs) :
    (HARD_FAULT_SYMBOL f exc r).take 18 = ReportStackUsage f exc r
    ∧ (MEMMANAGE_FAULT_SYMBOL f exc r).take 18 = ReportStackUsage f exc r
    ∧ (BUS_FAULT_SYMBOL f exc r).take 18 = ReportStackUsage f exc r
    ∧ (USAGE_FAULT_SYMBOL f exc r).take 18 = ReportStackUsage f exc r
    ∧ ReportStackUsageHexValues f exc r
      = [f.r0, f.r1, f.r2, f.r3, f.r12, f.lr, f.pc, f.psr,
         r.hfsr, r.cfsr, r.mmfar, r.bfar, r.afsr, exc]
    ∧ (ReportStackUsageHexValues f exc r).length = 14 := by
  refine ⟨rfl, rfl, rfl, rfl, rfl, rfl⟩

/-- C5 counterexample: for CFSR = 0x00008208 the Bus-fault decode does not
produce the three lines the claim states (0x8208 sets bits 3, 9 and 15,
not bits 8 and 12). -/
theorem c5_counterexample_cfsr_8208 :
    ¬ (ReportBusFault ⟨0, 0x00008208, 0, 0, 0⟩
        = ["Bus fault status:\n", " - BFAR holds an invalid address.",
           " - Stacking has caused a Bus fault.", " - Instruction bus error."]) := by
  decide

/-- C5 (amended): for CFSR = 0x00001100 — the value that actually has
IBUSERR (bit 8) set, STKERR (bit 12) set and BFARVALID (bit 15) clear —
the Bus-fault decode produces exactly the three descriptive lines
invalid-address, stacking, instruction-bus-error in that order after the
header, and no other line; CFSR = 0x00008208 instead decodes to a valid
BFAR and a precise data bus error. -/
theorem c5_amended_bus_decode_lines :
    ReportBusFault ⟨0, 0x00001100, 0, 0, 0⟩
      = ["Bus fault status:\n", " - BFAR holds an invalid address.",
         " - Stacking has caused a Bus fault.", " - Instruction bus error."]
    ∧ ReportBusFault ⟨0, 0x00008208, 0, 0, 0⟩
      = ["Bus fault status:\n", " - BFAR holds a valid address.",
         " - Data bus error has occurred, and the return address points to the instruction that caused the fault."] := by
  decide

/-- C6: for every CFSR value with MMARVALID (bit 7) clear, the MemManage
decode emits an explicit invalid-address line for MMAR, and for every
CFSR value with BFARVALID (bit 15) clear, the Bus decode emits an
explicit invalid-address line for BFAR: a clear valid-bit is never
silently omitted. -/
theorem c6_invalid_address_always_reported (r : FaultRegs) :
    (r.cfsr.testBit MMARVALID = false →
      " - MMAR holds an invalid address." ∈ ReportMemanageFault r)
    ∧ (r.cfsr.testBit BFARVALID = false →
      " - BFAR holds an invalid address." ∈ ReportBusFault r) := by
  constructor
  · intro hm
    simp [ReportMemanageFault, CHECK_BIT_ne_zero, CHECK_BIT_eq_zero, hm]
  · intro hb
    simp [ReportBusFault, CHECK_BIT_ne_zero, CHECK_BIT_eq_zero, hb]

/-- Witness for C6 at the all-zero register file, where both valid bits
are clear. -/
theorem c6_invalid_address_witness :
    " - MMAR holds an invalid address." ∈ ReportMemanageFault ⟨0, 0, 0, 0, 0⟩
    ∧ " - BFAR holds an invalid address." ∈ ReportBusFault ⟨0, 0, 0, 0, 0⟩ :=
  ⟨(c6_invalid_address_always_reported ⟨0, 0, 0, 0, 0⟩).1 (by decide),
   (c6_invalid_address_always_reported ⟨0, 0, 0, 0, 0⟩).2 (by decide)⟩

/-- C7: the number of descriptive lines each category's decode produces
beyond its unconditional lines (the header, plus the valid-address line
for MemManage and Bus) equals the number of that category's cause bits
set in CFSR — so exactly one cause bit set yields exactly one descriptive
line, and no cause bit set yields zero. -/
theorem c7_descriptive_line_counts (r : FaultRegs) :
    (ReportMemanageFault r).length = 2 + setBitCount r.cfsr memCauseBits
    ∧ (ReportBusFault r).length = 2 + setBitCount r.cfsr busCauseBits
    ∧ (ReportUsageFault r).length = 1 + setBitCount r.cfsr usageCauseBits := by
  refine ⟨?_, ?_, ?_⟩
  · cases h5 : r.cfsr.testBit MLSPERR <;> cases h4 : r.cfsr.testBit MSTKERR <;>
      cases h3 : r.cfsr.testBit MUNSTKERR <;> cases h1 : r.cfsr.testBit DACCVIOL <;>
        cases h0 : r.cfsr.testBit IACCVIOL <;>
          simp [ReportMemanageFault, setBitCount, memCauseBits,
            CHECK_BIT_ne_zero, CHECK_BIT_eq_zero, h5, h4, h3, h1, h0]
  · cases h13 : r.cfsr.testBit LSPERR <;> cases h12 : r.cfsr.testBit STKERR <;>
      cases h11 : r.cfsr.testBit UNSTKERR <;> cases h10 : r.cfsr.testBit IMPRECISERR <;>
        cases h9 : r.cfsr.testBit PRECISERR <;> cases h8 : r.cfsr.testBit IBUSERR <;>
          simp [ReportBusFault, setBitCount, busCauseBits,
            CHECK_BIT_ne_zero, CHECK_BIT_eq_zero, h13, h12, h11, h10, h9, h8]
  · cases h25 : r.cfsr.testBit DIVBYZERO <;> cases h24 : r.cfsr.testBit UNALIGNED <;>
      cases h19 : r.cfsr.testBit NOCP <;> cases h18 : r.cfsr.testBit INVPC <;>
        cases h17 : r.cfsr.testBit INVSTATE <;> cases h16 : r.cfsr.testBit UNDEFINSTR <;>
          simp [ReportUsageFault, setBitCount, usageCauseBits,
            CHECK_BIT_ne_zero, CHECK_BIT_eq_zero, h25, h24, h19, h18, h17, h16]

/-- C8: for every HFSR value with bit 30 (FORCED) set and bit 1 (VECTTBL)
clear — in particular any value with only bit 30 set — the Hard-fault
decode produces exactly the header and the Forced line, and no VECTTBL
line. -/
theorem c8_forced_only_decode (r : FaultRegs) (h30 : r.hfsr.testBit FORCED = true)
    (h1 : r.hfsr.testBit VECTTBL = false) :
    ReportHardFault r = ["Hard fault status:", " - Forced Hard fault."] := by
  simp [ReportHardFault, CHECK_BIT_ne_zero, CHECK_BIT_eq_zero, h30, h1]

/-- Witness for C8 at HFSR = 0x40000000, the value with only bit 30 set. -/
theorem c8_forced_only_witness :
    ReportHardFault ⟨0x40000000, 0, 0, 0, 0⟩
      = ["Hard fault status:", " - Forced Hard fault."] :=
  c8_forced_only_decode ⟨0x40000000, 0, 0, 0, 0⟩ (by decide) (by decide)

/-- C9: the MemManage/Bus/Usage sub-field decode is a pure deterministic
function of the CFSR value — two register files with identical CFSR yield
identical description lines in the same order — and the fault vector only
selects which sub-field decodes run after the dump, not their output. -/
theorem c9_decode_pure_function_of_cfsr (r r' : FaultRegs) (f : StackFrame)
    (exc : Nat) (h : r.cfsr = r'.cfsr) :
    ReportMemanageFault r = ReportMemanageFault r'
    ∧ ReportBusFault r = ReportBusFault r'
    ∧ ReportUsageFault r = ReportUsageFault r'
    ∧ (MEMMANAGE_FAULT_SYMBOL f exc r).drop 18 = ReportMemanageFault r
    ∧ (BUS_FAULT_SYMBOL f exc r).drop 18 = ReportBusFault r
    ∧ (USAGE_FAULT_SYMBOL f exc r).drop 18 = ReportUsageFault r
    ∧ (HARD_FAULT_SYMBOL f exc r).drop 18
      = ReportMemanageFault r ++ ReportBusFault r ++ ReportUsageFault r
        ++ ReportHardFault r := by
  refine ⟨?_, ?_, ?_, rfl, rfl, rfl, rfl⟩
  · simp [ReportMemanageFault, h]
  · simp [ReportBusFault, h]
  · simp [ReportUsageFault, h]

/-- Witness for C9: two register files that agree on CFSR but differ
everywhere else yield the same MemManage decode. -/
theorem c9_decode_pure_witness :
    ReportMemanageFault ⟨0, 0x12345678, 1, 2, 3⟩
      = ReportMemanageFault ⟨7, 0x12345678, 8, 9, 10⟩ :=
  (c9_decode_pure_function_of_cfsr ⟨0, 0x12345678, 1, 2, 3⟩
    ⟨7, 0x12345678, 8, 9, 10⟩ ⟨0, 0, 0, 0, 0, 0, 0, 0⟩ 0 rfl).1

/-- C10: `_write` iterates with a 16-bit counter compared against the
int-typed `len`: for every `0 ≤ len ≤ 65535` it writes
`data[0..len-1]` in order, terminates, and returns `len` unchanged; for
negative `len` it writes nothing and still returns `len`; for every
`len > 65535` the counter wraps before reaching `len` and the loop never
terminates, whatever the fuel. -/
theorem c10_write_loop_behaviour (file : Int) (data : Nat → Int) (len : Int) :
    (0 ≤ len → len ≤ 65535 →
      _write file data len (len.toNat + 1)
        = some ((List.range len.toNat).map data, len))
    ∧ (len < 0 → _write file data len 1 = some ([], len))
    ∧ (65535 < len → ∀ fuel : Nat, _write file data len fuel = none) := by
  refine ⟨?_, ?_, ?_⟩
  · intro h0 h1
    unfold _write
    rw [writeLoopGo_term data len h1 len.toNat 0 (by push_cast; omega) (by omega) []]
    have : ((len - ((0 : Nat) : Int)).toNat) = len.toNat := by omega
    simp [this, List.range_eq_range']
  · intro hneg
    have hni : ¬ (((0 : Nat) : Int) < len) := by push_cast; omega
    unfold _write writeLoopGo
    rw [if_neg hni]
    rfl
  · intro hbig fuel
    unfold _write
    rw [writeLoopGo_div data len (by omega) fuel 0 (by omega) []]
    rfl

/-- Witness for C10 at `len = 2` (terminates, writes two bytes, returns
2), `len = -3` (writes nothing, returns -3) and `len = 70000` (never
terminates). -/
theorem c10_write_loop_witness :
    _write 0 (fun i => (i : Int)) 2 3 = some ([0, 1], 2)
    ∧ _write 0 (fun i => (i : Int)) (-3) 1 = some ([], -3)
    ∧ _write 0 (fun i => (i : Int)) 70000 5 = none := by
  refine ⟨?_, ?_,
    (c10_write_loop_behaviour 0 (fun i => (i : Int)) 70000).2.2 (by norm_num) 5⟩
  · simpa using
      (c10_write_loop_behaviour 0 (fun i => (i : Int)) 2).1 (by norm_num) (by norm_num)
  · simpa using
      (c10_write_loop_behaviour 0 (fun i => (i : Int)) (-3)).2.1 (by norm_num)
